import Mathlib

/-!
# Property investment analyzer: scan-and-score pipeline

A shallow embedding of `backend/Server.js` (`calculateMortgage`, `analyzeProperty`, the
`POST /api/scan-properties` handler) together with theorems about it.

## Number model

A JavaScript number is modelled by `JSNum`: an exact rational, or one of the three special
values `NaN`, `+Infinity`, `-Infinity`.  The arithmetic follows IEEE 754 on the special values
(`0/0 = NaN`, `x/0 = ±Infinity`, `Infinity - Infinity = NaN`, comparisons with `NaN` are false).
Two things are idealised: finite results are exact (no binary rounding, no overflow), and there
is a single zero, which behaves as `+0`.

Numbers that arrive through JSON (listing fields, configuration fields) are finite, so they are
rationals; a field that may be missing is an `Option`.

## What the idealisation leaves out

The code computes in binary64.  What depends only on a value being `NaN`, infinite or finite,
on its sign, or on a rounding staying within half a unit is the same in both.  What differs:

* a finite quotient or product is the nearest double, so a comparison with a threshold the
  exact value meets can fail in the code (`2200/200000*100` is `1.0999999999999999`, below
  `1.1`);
* `calculateMortgage` returns a rounded double, which is `Infinity` when `1 + monthlyRate`
  rounds to 1 (annual rate `1e-15`) and `NaN` when the power overflows (annual rate `10000`);
* `toFixed(2)` rounds the binary value, so a third-decimal tie of the exact value can go the
  other way;
* a divisor `-0` gives the infinity of the opposite sign;
* `trim()` strips all Unicode white space, `String.trim` here only the ASCII one.

The definitions under `Spec` are the formulas of the specification over the rationals; they
are compared with the code at concrete inputs only.
-/

namespace PropertyAnalyzer

/-! ## JavaScript numbers -/

/-- A JavaScript number: `NaN`, `+Infinity`, `-Infinity`, or a finite value. -/
inductive JSNum where
  | nan : JSNum
  | posInf : JSNum
  | negInf : JSNum
  | fin : ℚ → JSNum
  deriving DecidableEq

namespace JSNum

/-- Unary minus. -/
def neg : JSNum → JSNum
  | nan => nan
  | posInf => negInf
  | negInf => posInf
  | fin a => fin (-a)

/-- The `+` operator on numbers. -/
def add : JSNum → JSNum → JSNum
  | nan, _ => nan
  | _, nan => nan
  | posInf, negInf => nan
  | negInf, posInf => nan
  | posInf, _ => posInf
  | negInf, _ => negInf
  | fin _, posInf => posInf
  | fin _, negInf => negInf
  | fin a, fin b => fin (a + b)

/-- The `-` operator on numbers. -/
def sub (x y : JSNum) : JSNum := add x (neg y)

/-- An infinity of the given sign (`true` is negative). -/
def infOfSign (negative : Bool) : JSNum := if negative then negInf else posInf

/-- The `*` operator on numbers. -/
def mul : JSNum → JSNum → JSNum
  | nan, _ => nan
  | _, nan => nan
  | posInf, posInf => posInf
  | posInf, negInf => negInf
  | negInf, posInf => negInf
  | negInf, negInf => posInf
  | posInf, fin b => if b = 0 then nan else infOfSign (decide (b < 0))
  | negInf, fin b => if b = 0 then nan else infOfSign (decide (0 < b))
  | fin a, posInf => if a = 0 then nan else infOfSign (decide (a < 0))
  | fin a, negInf => if a = 0 then nan else infOfSign (decide (0 < a))
  | fin a, fin b => fin (a * b)

/-- The `/` operator on numbers; a zero divisor is `+0`. -/
def div : JSNum → JSNum → JSNum
  | nan, _ => nan
  | _, nan => nan
  | posInf, posInf => nan
  | posInf, negInf => nan
  | negInf, posInf => nan
  | negInf, negInf => nan
  | posInf, fin b => infOfSign (decide (b < 0))
  | negInf, fin b => infOfSign (decide (0 ≤ b))
  | fin _, posInf => fin 0
  | fin _, negInf => fin 0
  | fin a, fin b =>
    if b = 0 then
      if a = 0 then nan else infOfSign (decide (a < 0))
    else fin (a / b)

instance : Add JSNum := ⟨add⟩
instance : Sub JSNum := ⟨sub⟩
instance : Mul JSNum := ⟨mul⟩
instance : Div JSNum := ⟨div⟩
instance (n : ℕ) : OfNat JSNum n := ⟨fin (n : ℚ)⟩

/-- `Math.pow(x, n)` for a non-negative integer exponent `n`. -/
def pow (x : JSNum) (n : ℕ) : JSNum :=
  if n = 0 then fin 1
  else match x with
    | nan => nan
    | posInf => posInf
    | negInf => if n % 2 = 0 then posInf else negInf
    | fin a => fin (a ^ n)

/-- The `>` operator on numbers. -/
def gt : JSNum → JSNum → Bool
  | nan, _ => false
  | _, nan => false
  | posInf, posInf => false
  | posInf, _ => true
  | negInf, _ => false
  | fin _, posInf => false
  | fin _, negInf => true
  | fin a, fin b => decide (b < a)

/-- The `>=` operator on numbers. -/
def ge : JSNum → JSNum → Bool
  | nan, _ => false
  | _, nan => false
  | posInf, _ => true
  | negInf, negInf => true
  | negInf, _ => false
  | fin _, posInf => false
  | fin _, negInf => true
  | fin a, fin b => decide (b ≤ a)

/-- Nearest integer, ties towards `+∞`: `Math.round` on a finite value. -/
def roundHalfUp (a : ℚ) : ℤ := ⌊a + 1 / 2⌋

/-- `Math.round(x)`. -/
def round : JSNum → JSNum
  | fin a => fin (roundHalfUp a)
  | x => x

/-- Nearest multiple of `1/100`, ties away from zero: the value that `x.toFixed(2)` prints
for a finite `x` (the sign is split off and the magnitude is rounded, the larger candidate
winning a tie). -/
def toFixed2Value (a : ℚ) : ℚ :=
  if a < 0 then -((⌊(-a) * 100 + 1 / 2⌋ : ℤ) : ℚ) / 100
  else ((⌊a * 100 + 1 / 2⌋ : ℤ) : ℚ) / 100

/-- `parseFloat(x.toFixed(2))`: `NaN` and the infinities print as their names and parse back
to themselves. -/
def toFixed2 : JSNum → JSNum
  | fin a => fin (toFixed2Value a)
  | x => x

/-- Whether the number is finite. -/
def isFinite : JSNum → Bool
  | fin _ => true
  | _ => false

end JSNum

open JSNum

/-! ## Data model -/

/-- `x || d` for a numeric field that may be missing: a missing value and `0` are falsy. -/
def orNum (x : Option ℚ) (d : ℚ) : ℚ :=
  match x with
  | some v => if v = 0 then d else v
  | none => d

/-- `x || d` for a string field that may be missing: a missing value and `""` are falsy. -/
def orStr (x : Option String) (d : String) : String :=
  match x with
  | some v => if v = "" then d else v
  | none => d

/-- A listing object: the fields the provider may send, plus the ones the scan adds
(`rentEstimate`, `squareFeet`).  Every field may be missing. -/
structure Property where
  formattedAddress : Option String
  address : Option String
  city : Option String
  state : Option String
  zipCode : Option String
  propertyType : Option String
  price : Option ℚ
  bedrooms : Option ℚ
  bathrooms : Option ℚ
  squareFootage : Option ℚ
  squareFeet : Option ℚ
  rentEstimate : Option ℚ
  deriving DecidableEq

/-- The scan configuration sent by the operator. -/
structure Config where
  maxPrice : ℚ
  minRentRatio : ℚ
  minCashFlow : ℚ
  targetCities : List String
  downPaymentPercent : ℚ
  interestRate : ℚ
  propertyTaxRate : ℚ
  insuranceMonthly : Option ℚ
  maintenancePercent : ℚ
  vacancyRate : ℚ
  propertyManagementPercent : ℚ
  deriving DecidableEq

/-- The record returned by `analyzeProperty`: the listing itself and the computed fields. -/
structure ScoredListing where
  property : Property
  estimatedRent : ℚ
  monthlyMortgage : JSNum
  propertyTax : JSNum
  insurance : ℚ
  maintenance : JSNum
  propertyManagement : JSNum
  vacancy : JSNum
  totalExpenses : JSNum
  cashFlow : JSNum
  rentRatio : JSNum
  capRate : JSNum
  roi : JSNum
  score : ℤ
  isGoodDeal : Bool
  deriving DecidableEq

/-! ## Financial metrics engine -/

/-- The function `calculateMortgage(principal, annualRate, years)`; the source gives `years`
the default value 30.  Each finite step is exact here, where the code takes the nearest
double. -/
def calculateMortgage (principal annualRate : JSNum) (years : ℕ) : JSNum :=
  let monthlyRate := annualRate / 100 / 12
  let numPayments := years * 12
  let payment := principal * (monthlyRate * pow (1 + monthlyRate) numPayments) /
    (pow (1 + monthlyRate) numPayments - 1)
  payment

namespace Analysis

/-- `const price = property.price || 0`. -/
def price (p : Property) : ℚ := orNum p.price 0

/-- `const estimatedRent = property.rentEstimate || 0`. -/
def estimatedRent (p : Property) : ℚ := orNum p.rentEstimate 0

/-- `const downPayment = price * (config.downPaymentPercent / 100)`. -/
def downPayment (p : Property) (c : Config) : JSNum :=
  fin (price p) * (fin c.downPaymentPercent / 100)

/-- `const loanAmount = price - downPayment`. -/
def loanAmount (p : Property) (c : Config) : JSNum := fin (price p) - downPayment p c

/-- `const monthlyMortgage = calculateMortgage(loanAmount, config.interestRate)`. -/
def monthlyMortgage (p : Property) (c : Config) : JSNum :=
  calculateMortgage (loanAmount p c) (fin c.interestRate) 30

/-- `const propertyTax = (price * (config.propertyTaxRate / 100)) / 12`. -/
def propertyTax (p : Property) (c : Config) : JSNum :=
  (fin (price p) * (fin c.propertyTaxRate / 100)) / 12

/-- `const insurance = config.insuranceMonthly || 150`. -/
def insurance (c : Config) : ℚ := orNum c.insuranceMonthly 150

/-- `const maintenance = (price * (config.maintenancePercent / 100)) / 12`. -/
def maintenance (p : Property) (c : Config) : JSNum :=
  (fin (price p) * (fin c.maintenancePercent / 100)) / 12

/-- `const propertyManagement = estimatedRent * (config.propertyManagementPercent / 100)`. -/
def propertyManagement (p : Property) (c : Config) : JSNum :=
  fin (estimatedRent p) * (fin c.propertyManagementPercent / 100)

/-- `const vacancy = estimatedRent * (config.vacancyRate / 100)`. -/
def vacancy (p : Property) (c : Config) : JSNum :=
  fin (estimatedRent p) * (fin c.vacancyRate / 100)

/-- The sum `monthlyMortgage + propertyTax + insurance + maintenance + propertyManagement +
vacancy`, added left to right. -/
def totalExpenses (p : Property) (c : Config) : JSNum :=
  monthlyMortgage p c + propertyTax p c + fin (insurance c) + maintenance p c +
    propertyManagement p c + vacancy p c

/-- `const cashFlow = estimatedRent - totalExpenses`. -/
def cashFlow (p : Property) (c : Config) : JSNum := fin (estimatedRent p) - totalExpenses p c

/-- `const rentRatio = (estimatedRent / price) * 100`. -/
def rentRatio (p : Property) : JSNum := (fin (estimatedRent p) / fin (price p)) * 100

/-- `const capRate = ((estimatedRent * 12 - (propertyTax * 12 + insurance * 12 +
maintenance * 12)) / price) * 100`. -/
def capRate (p : Property) (c : Config) : JSNum :=
  ((fin (estimatedRent p) * 12 -
      (propertyTax p c * 12 + fin (insurance c) * 12 + maintenance p c * 12)) /
    fin (price p)) * 100

/-- `const roi = ((cashFlow * 12) / downPayment) * 100`. -/
def roi (p : Property) (c : Config) : JSNum := ((cashFlow p c * 12) / downPayment p c) * 100

/-- The additive score: `let score = 0` followed by the four guarded `score += w`. -/
def score (p : Property) (c : Config) : ℕ :=
  let score := 0
  let score := if gt (cashFlow p c) 0 then score + 30 else score
  let score := if ge (rentRatio p) (fin c.minRentRatio) then score + 25 else score
  let score := if gt (capRate p c) 8 then score + 20 else score
  let score := if gt (roi p c) 10 then score + 25 else score
  score

/-- `const isGoodDeal = cashFlow >= config.minCashFlow && rentRatio >= config.minRentRatio
&& score >= 70`, on the unrounded values. -/
def isGoodDeal (p : Property) (c : Config) : Bool :=
  ge (cashFlow p c) (fin c.minCashFlow) && ge (rentRatio p) (fin c.minRentRatio) &&
    decide (70 ≤ score p c)

end Analysis

/-- The function `analyzeProperty(property, config)`: the returned object literal. -/
def analyzeProperty (property : Property) (config : Config) : ScoredListing where
  property := property
  estimatedRent := Analysis.estimatedRent property
  monthlyMortgage := round (Analysis.monthlyMortgage property config)
  propertyTax := round (Analysis.propertyTax property config)
  insurance := Analysis.insurance config
  maintenance := round (Analysis.maintenance property config)
  propertyManagement := round (Analysis.propertyManagement property config)
  vacancy := round (Analysis.vacancy property config)
  totalExpenses := round (Analysis.totalExpenses property config)
  cashFlow := round (Analysis.cashFlow property config)
  rentRatio := toFixed2 (Analysis.rentRatio property)
  capRate := toFixed2 (Analysis.capRate property config)
  roi := toFixed2 (Analysis.roi property config)
  score := roundHalfUp (Analysis.score property config)
  isGoodDeal := Analysis.isGoodDeal property config

/-! ## Notification dispatcher -/

/-- The external collaborators of a scan. -/
structure Providers where
  /-- The listing search `GET /properties` with the parsed city and state and `config.maxPrice`
  (the limit 50 and the status filter are constants): `none` when the awaited request rejects
  or the body cannot be iterated, otherwise `response.data || []`. -/
  searchListings : String → String → ℚ → Option (List Property)
  /-- The rent lookup `GET /avm/rent/value` with the address and the property type: `none`
  when the awaited request rejects, otherwise the optional number `rentResponse.data?.rent`. -/
  estimateRent : Option String → String → Option (Option ℚ)
  /-- The mail transport `transporter.sendMail(mailOptions)`, the message being rendered from
  the scored listing: `Except.error` when the awaited send rejects. -/
  sendMail : ScoredListing → Except String Unit

/-- The function `sendPropertyAlert(property)`: `true` when the send resolves, `false` from
the `catch` block. -/
def sendPropertyAlert (env : Providers) (property : ScoredListing) : Bool :=
  match env.sendMail property with
  | Except.ok _ => true
  | Except.error _ => false

/-! ## Market scan orchestrator -/

/-- `x || y` where both sides may be missing strings. -/
def orOpt (x y : Option String) : Option String :=
  match x with
  | some v => if v = "" then y else some v
  | none => y

/-- `x || null` for a numeric field. -/
def orNull (x : Option ℚ) : Option ℚ :=
  match x with
  | some v => if v = 0 then none else some v
  | none => none

/-- `city.split(',')[0].trim()`, with white space being the ASCII one. -/
def cityName (city : String) : String := ((city.splitOn ",").headD "").trim

/-- `city.split(',')[1]?.trim()`, with white space being the ASCII one. -/
def stateName (city : String) : Option String :=
  match city.splitOn "," with
  | _ :: s :: _ => some s.trim
  | _ => none

/-- The object literal passed to `analyzeProperty` by the scan: the provider's listing with
the rent estimate and the normalised fields written over it. -/
def normalizeListing (property : Property) (city : String) (rentEstimate : ℚ) : Property :=
  { property with
    rentEstimate := some rentEstimate
    address := some (orStr (orOpt property.formattedAddress property.address) "Address Unknown")
    city := some (orStr property.city (cityName city))
    state := some (orStr (orOpt property.state (stateName city)) "")
    zipCode := some (orStr property.zipCode "")
    price := some (orNum property.price 0)
    bedrooms := some (orNum property.bedrooms 0)
    bathrooms := some (orNum property.bathrooms 0)
    squareFeet := orNull property.squareFootage }

/-- The mutable locals of the scan handler, and the sequence of listings handed to
`sendPropertyAlert` so far (the calls are an effect of the scan). -/
structure ScanState where
  allProperties : List ScoredListing
  goodDeals : List ScoredListing
  alertsSent : ℕ
  dispatched : List ScoredListing

/-- The state at the start of a scan. -/
def ScanState.init : ScanState :=
  { allProperties := [], goodDeals := [], alertsSent := 0, dispatched := [] }

/-- The rent lookup made for one listing. -/
def rentLookup (env : Providers) (property : Property) : Option (Option ℚ) :=
  env.estimateRent (orOpt property.formattedAddress property.address)
    (orStr property.propertyType "Single Family")

/-- The body of the inner loop `for (const property of properties)`: a rejected rent lookup
lands in the `catch` block and leaves the state as it was. -/
def scanListing (env : Providers) (config : Config) (city : String) (st : ScanState)
    (property : Property) : ScanState :=
  match rentLookup env property with
  | none => st
  | some rent =>
    let rentEstimate := orNum rent 0
    let analyzedProperty := analyzeProperty (normalizeListing property city rentEstimate) config
    let st := { st with allProperties := st.allProperties ++ [analyzedProperty] }
    if analyzedProperty.isGoodDeal then
      let st := { st with goodDeals := st.goodDeals ++ [analyzedProperty],
                          dispatched := st.dispatched ++ [analyzedProperty] }
      let sent := sendPropertyAlert env analyzedProperty
      if sent then { st with alertsSent := st.alertsSent + 1 } else st
    else st

/-- The listing search made for one market. -/
def marketSearch (env : Providers) (config : Config) (city : String) :
    Option (List Property) :=
  env.searchListings (cityName city) (orStr (stateName city) "") config.maxPrice

/-- The body of the outer loop `for (const city of config.targetCities)`: a rejected search
lands in the `catch` block and leaves the state as it was. -/
def scanCity (env : Providers) (config : Config) (st : ScanState) (city : String) :
    ScanState :=
  match marketSearch env config city with
  | none => st
  | some properties => properties.foldl (scanListing env config city) st

/-- The state after the outer loop has run over all target cities. -/
def scanAll (env : Providers) (config : Config) : ScanState :=
  config.targetCities.foldl (scanCity env config) ScanState.init

/-- The comparator `(a, b) => b.score - a.score`. -/
def compareScore (a b : ScoredListing) : ℤ := b.score - a.score

/-- The call `allProperties.sort(compareScore)`.  `Array.prototype.sort` is stable and puts
`a` before `b` when the comparator is negative, which fixes its result; insertion sort
computes it. -/
def sortByScore (l : List ScoredListing) : List ScoredListing :=
  l.insertionSort (fun a b => compareScore a b ≤ 0)

/-- The `stats` object of the response. -/
structure ScanStats where
  total : ℕ
  goodDeals : ℕ
  alertsSent : ℕ
  deriving DecidableEq

/-- The JSON body of a successful response. -/
structure ScanResult where
  properties : List ScoredListing
  stats : ScanStats
  deriving DecidableEq

/-- The handler of `POST /api/scan-properties`.  The request body carries the configuration
or not; without one, `config.targetCities` throws and the outer `catch` answers 500. -/
def scanProperties (env : Providers) (body : Option Config) : Except String ScanResult :=
  match body with
  | none => Except.error "Failed to scan properties"
  | some config =>
    let st := scanAll env config
    let allProperties := sortByScore st.allProperties
    Except.ok
      { properties := allProperties.take 20
        stats :=
          { total := allProperties.length
            goodDeals := st.goodDeals.length
            alertsSent := st.alertsSent } }

/-! ## Definitions that follow the specification's wording -/

/-- The outstanding balance after `k` monthly payments, as the specification describes a
fully amortizing loan: `B 0 = P` and `B (k+1) = B k * (1 + r) - payment`. -/
def balance (P r payment : ℚ) : ℕ → ℚ
  | 0 => P
  | k + 1 => balance P r payment k * (1 + r) - payment

namespace Spec

/-- Down payment in the words of section 4.1: `downPayment = price * downPaymentPercent/100`. -/
def downPayment (price : ℚ) (c : Config) : ℚ := price * c.downPaymentPercent / 100

/-- Loan amount in the words of section 4.1: `loanAmount = price - downPayment`. -/
def loanAmount (price : ℚ) (c : Config) : ℚ := price - downPayment price c

/-- Monthly payment in the words of section 4.1: `monthlyRate = rate/100/12`, `n = years*12`
with `years` fixed at 30, `payment = loanAmount * monthlyRate*(1+monthlyRate)^n /
((1+monthlyRate)^n - 1)`, and `loanAmount/n` when `monthlyRate` is 0. -/
def payment (loanAmount rate : ℚ) : ℚ :=
  let monthlyRate := rate / 100 / 12
  let n : ℕ := 30 * 12
  if monthlyRate = 0 then loanAmount / (n : ℚ)
  else loanAmount * monthlyRate * (1 + monthlyRate) ^ n / ((1 + monthlyRate) ^ n - 1)

/-- Property tax in the words of section 4.1: `price*propertyTaxRate/100/12`. -/
def propertyTax (price : ℚ) (c : Config) : ℚ := price * c.propertyTaxRate / 100 / 12

/-- Insurance in the words of the specification: the configured value, 150 if absent. -/
def insurance (c : Config) : ℚ := c.insuranceMonthly.getD 150

/-- Maintenance in the words of section 4.1: `price*maintenancePercent/100/12`. -/
def maintenance (price : ℚ) (c : Config) : ℚ := price * c.maintenancePercent / 100 / 12

/-- Property management in the words of section 4.1:
`estimatedRent*propertyManagementPercent/100`. -/
def propertyManagement (rent : ℚ) (c : Config) : ℚ := rent * c.propertyManagementPercent / 100

/-- Vacancy in the words of section 4.1: `estimatedRent*vacancyRate/100`. -/
def vacancy (rent : ℚ) (c : Config) : ℚ := rent * c.vacancyRate / 100

/-- Total expenses in the words of section 4.1:
`mortgage + tax + insurance + maintenance + management + vacancy`. -/
def totalExpenses (price rent : ℚ) (c : Config) : ℚ :=
  payment (loanAmount price c) c.interestRate + propertyTax price c + insurance c +
    maintenance price c + propertyManagement rent c + vacancy rent c

/-- Cash flow in the words of section 4.1: `estimatedRent - totalExpenses`. -/
def cashFlow (price rent : ℚ) (c : Config) : ℚ := rent - totalExpenses price rent c

/-- Rent ratio in the words of section 4.1: `estimatedRent/price * 100`, and 0 when the price
is 0. -/
def rentRatio (price rent : ℚ) : ℚ := if price = 0 then 0 else rent / price * 100

/-- Cap rate in the words of section 4.1:
`(estimatedRent*12 - (tax+insurance+maintenance)*12) / price * 100`, and 0 when the price
is 0. -/
def capRate (price rent : ℚ) (c : Config) : ℚ :=
  if price = 0 then 0
  else (rent * 12 - (propertyTax price c + insurance c + maintenance price c) * 12) /
    price * 100

/-- ROI in the words of section 4.1: `(cashFlow*12) / downPayment * 100`, and 0 when the down
payment is 0. -/
def roi (price rent : ℚ) (c : Config) : ℚ :=
  if downPayment price c = 0 then 0
  else cashFlow price rent c * 12 / downPayment price c * 100

/-- Score in the words of section 4.1: `+30 if cashFlow > 0; +25 if rentRatio ≥ minRentRatio;
+20 if capRate > 8; +25 if roi > 10`. -/
def score (price rent : ℚ) (c : Config) : ℕ :=
  (if 0 < cashFlow price rent c then 30 else 0) +
    (if c.minRentRatio ≤ rentRatio price rent then 25 else 0) +
    (if 8 < capRate price rent c then 20 else 0) +
    (if 10 < roi price rent c then 25 else 0)

end Spec

/-- The scored listing that one provider listing of a market yields, in the words of the
specification: none when its rent estimate fails, otherwise the analysis of the normalised
listing with the estimate. -/
def scoredOf (env : Providers) (config : Config) (city : String) (property : Property) :
    Option ScoredListing :=
  (rentLookup env property).map fun rent =>
    analyzeProperty (normalizeListing property city (orNum rent 0)) config

/-- The scored listings that one market contributes, in the words of the specification: none
when the listing search fails, otherwise one per listing whose rent estimate succeeds, in the
order the provider returned them. -/
def marketListings (env : Providers) (config : Config) (city : String) : List ScoredListing :=
  match marketSearch env config city with
  | none => []
  | some properties => properties.filterMap (scoredOf env config city)

/-- The state `st` after the scored listings `ls` have been appended, qualifying ones
dispatched and successful dispatches counted. -/
def ScanState.extend (env : Providers) (st : ScanState) (ls : List ScoredListing) : ScanState :=
  { allProperties := st.allProperties ++ ls
    goodDeals := st.goodDeals ++ ls.filter (fun x => x.isGoodDeal)
    alertsSent := st.alertsSent +
      ((ls.filter (fun x => x.isGoodDeal)).filter (sendPropertyAlert env)).length
    dispatched := st.dispatched ++ ls.filter (fun x => x.isGoodDeal) }

/-- A returned currency field is the nearest-integer rounding of a computed amount, in the
words of the specification: both are finite, the field is a whole number, and it lies within
one half of the amount. -/
def RoundedToInteger (field computed : JSNum) : Prop :=
  ∃ (n : ℤ) (x : ℚ), field = fin n ∧ computed = fin x ∧ |(n : ℚ) - x| ≤ 1 / 2

/-- A returned percentage field is a computed value rounded to 2 decimal places, in the words
of the specification: both are finite, the field is a whole number of hundredths, and it lies
within half a hundredth of the value. -/
def RoundedToCents (field computed : JSNum) : Prop :=
  ∃ (k : ℤ) (x : ℚ), field = fin ((k : ℚ) / 100) ∧ computed = fin x ∧
    |(k : ℚ) / 100 - x| ≤ 1 / 200

/-! ## Concrete inputs -/

/-- A listing that carries only a price and a rent estimate. -/
def bareListing (price rentEstimate : Option ℚ) : Property :=
  { formattedAddress := none, address := none, city := none, state := none, zipCode := none,
    propertyType := none, price := price, bedrooms := none, bathrooms := none,
    squareFootage := none, squareFeet := none, rentEstimate := rentEstimate }

/-- The configuration of the specification's end-to-end example. -/
def fixtureConfig : Config :=
  { maxPrice := 500000, minRentRatio := 1, minCashFlow := 200, targetCities := ["Austin, TX"],
    downPaymentPercent := 20, interestRate := 6, propertyTaxRate := 12 / 10,
    insuranceMonthly := some 150, maintenancePercent := 1, vacancyRate := 8,
    propertyManagementPercent := 10 }

/-- The example configuration with a rent-ratio threshold of 1.502 percent. -/
def fineThresholdConfig : Config := { fixtureConfig with minRentRatio := 1502 / 1000 }

/-- The example configuration with no down payment. -/
def noDownPaymentConfig : Config := { fixtureConfig with downPaymentPercent := 0 }

/-- The example configuration with an interest rate of 0. -/
def zeroRateConfig : Config := { fixtureConfig with interestRate := 0 }

/-- The example configuration with the monthly insurance set to 0. -/
def zeroInsuranceConfig : Config := { fixtureConfig with insuranceMonthly := some 0 }

/-- The example configuration with a monthly insurance of 150.50. -/
def centsInsuranceConfig : Config := { fixtureConfig with insuranceMonthly := some (301 / 2) }

/-! ## Arithmetic on finite values -/

namespace JSNum

theorem ofNat_eq (n : ℕ) : (OfNat.ofNat n : JSNum) = fin (n : ℚ) := rfl

@[simp] theorem fin_add (a b : ℚ) : fin a + fin b = fin (a + b) := rfl

@[simp] theorem fin_mul (a b : ℚ) : fin a * fin b = fin (a * b) := rfl

@[simp] theorem fin_sub (a b : ℚ) : fin a - fin b = fin (a - b) := by
  show fin (a + -b) = fin (a - b)
  rw [sub_eq_add_neg]

theorem fin_div (a : ℚ) {b : ℚ} (hb : b ≠ 0) : fin a / fin b = fin (a / b) := by
  show div (fin a) (fin b) = fin (a / b)
  simp [div, hb]

@[simp] theorem fin_div_hundred (a : ℚ) : fin a / 100 = fin (a / 100) := by
  rw [ofNat_eq, fin_div _ (by norm_num)]
  norm_num

@[simp] theorem fin_div_twelve (a : ℚ) : fin a / 12 = fin (a / 12) := by
  rw [ofNat_eq, fin_div _ (by norm_num)]
  norm_num

@[simp] theorem fin_mul_twelve (a : ℚ) : fin a * 12 = fin (a * 12) := by
  rw [ofNat_eq, fin_mul]
  norm_num

@[simp] theorem fin_mul_hundred (a : ℚ) : fin a * 100 = fin (a * 100) := by
  rw [ofNat_eq, fin_mul]
  norm_num

@[simp] theorem one_add_fin (a : ℚ) : (1 : JSNum) + fin a = fin (1 + a) := by
  rw [ofNat_eq, fin_add]
  norm_num

@[simp] theorem fin_sub_one (a : ℚ) : fin a - 1 = fin (a - 1) := by
  rw [ofNat_eq, fin_sub]
  norm_num

theorem pow_fin (a : ℚ) {n : ℕ} (hn : n ≠ 0) : pow (fin a) n = fin (a ^ n) := by
  simp [pow, hn]

theorem zero_div_zero : fin 0 / fin 0 = nan := by
  show div (fin 0) (fin 0) = nan
  simp [div]

end JSNum

/-- The monthly payment on a finite principal at a finite annual rate, when the
denominator of the amortization formula does not vanish. -/
theorem calculateMortgage_fin (P rate : ℚ)
    (h : (1 + rate / 100 / 12) ^ 360 - 1 ≠ 0) :
    calculateMortgage (fin P) (fin rate) 30 =
      fin (P * (rate / 100 / 12 * (1 + rate / 100 / 12) ^ 360) /
        ((1 + rate / 100 / 12) ^ 360 - 1)) := by
  simp only [calculateMortgage, fin_div_hundred, fin_div_twelve, one_add_fin]
  rw [show 30 * 12 = 360 from rfl, pow_fin _ (by norm_num), fin_mul, fin_mul, fin_sub_one,
    fin_div _ h]

/-- For a positive rate the denominator of the amortization formula is positive. -/
theorem compound_sub_one_pos {r : ℚ} (hr : 0 < r) {n : ℕ} (hn : n ≠ 0) :
    0 < (1 + r) ^ n - 1 := by
  have h1 : (1 : ℚ) < 1 + r := by linarith
  have := one_lt_pow₀ h1 hn
  linarith

/-- Closed form of the balance, cleared of its denominator `r`. -/
theorem balance_mul_rate (P r payment : ℚ) (k : ℕ) :
    balance P r payment k * r = P * r * (1 + r) ^ k - payment * ((1 + r) ^ k - 1) := by
  induction k with
  | zero => simp [balance]
  | succ k ih =>
    have hstep : balance P r payment (k + 1) * r =
        balance P r payment k * r * (1 + r) - payment * r := by
      simp only [balance]; ring
    rw [hstep, ih]; ring

/-- Over the rationals, paying `P*r*(1+r)^n/((1+r)^n - 1)` each month brings the balance to
zero after `n` payments: the closed form of the specification is the amortizing payment. -/
theorem balance_payoff (P r : ℚ) (n : ℕ) (hr : r ≠ 0) (hd : (1 + r) ^ n - 1 ≠ 0) :
    balance P r (P * (r * (1 + r) ^ n) / ((1 + r) ^ n - 1)) n = 0 := by
  have hb := balance_mul_rate P r (P * (r * (1 + r) ^ n) / ((1 + r) ^ n - 1)) n
  rw [div_mul_cancel₀ _ hd] at hb
  have hzero : balance P r (P * (r * (1 + r) ^ n) / ((1 + r) ^ n - 1)) n * r = 0 := by
    rw [hb, mul_assoc, sub_self]
  rcases mul_eq_zero.mp hzero with h0 | h0
  · exact h0
  · exact absurd h0 hr

/-! ## Rounding -/

theorem roundHalfUp_natCast (n : ℕ) : roundHalfUp (n : ℚ) = n := by
  unfold roundHalfUp
  rw [Int.floor_eq_iff]
  constructor
  · push_cast; linarith
  · push_cast; linarith

theorem roundHalfUp_sub_le (a : ℚ) : (roundHalfUp a : ℚ) - a ≤ 1 / 2 := by
  have := Int.floor_le (a + 1 / 2)
  unfold roundHalfUp
  linarith

theorem roundHalfUp_sub_gt (a : ℚ) : -(1 / 2) < (roundHalfUp a : ℚ) - a := by
  have := Int.lt_floor_add_one (a + 1 / 2)
  unfold roundHalfUp
  linarith

/-- Rounding to the nearest integer does not cross an integer threshold from above. -/
theorem ge_round_of_ge {x : JSNum} {m : ℚ} (hm : ∃ k : ℤ, m = k) (h : ge x (fin m) = true) :
    ge (round x) (fin m) = true := by
  obtain ⟨k, rfl⟩ := hm
  cases x with
  | nan => simp [ge] at h
  | posInf => simp [JSNum.round, ge]
  | negInf => simp [ge] at h
  | fin a =>
    simp only [ge, decide_eq_true_eq] at h
    simp only [JSNum.round, ge, decide_eq_true_eq, roundHalfUp]
    have : k ≤ ⌊a + 1 / 2⌋ := Int.le_floor.mpr (by linarith)
    exact_mod_cast this

/-- Rounding to two decimals does not cross a two-decimal threshold from above. -/
theorem ge_toFixed2_of_ge {x : JSNum} {m : ℚ} (hm : ∃ k : ℤ, m * 100 = k)
    (h : ge x (fin m) = true) : ge (toFixed2 x) (fin m) = true := by
  obtain ⟨k, hk⟩ := hm
  cases x with
  | nan => simp [ge] at h
  | posInf => simp [toFixed2, ge]
  | negInf => simp [ge] at h
  | fin a =>
    simp only [ge, decide_eq_true_eq] at h
    simp only [toFixed2, ge, decide_eq_true_eq, toFixed2Value]
    have hm' : m = (k : ℚ) / 100 := by rw [← hk]; ring
    split_ifs with hneg
    · have hfl : ⌊-a * 100 + 1 / 2⌋ ≤ -k := by
        rw [← Int.lt_add_one_iff, Int.floor_lt]
        push_cast
        linarith
      have hq : ((⌊-a * 100 + 1 / 2⌋ : ℤ) : ℚ) ≤ -(k : ℚ) := by exact_mod_cast hfl
      rw [hm']
      linarith
    · have hfl : k ≤ ⌊a * 100 + 1 / 2⌋ := Int.le_floor.mpr (by linarith)
      have hq : (k : ℚ) ≤ ((⌊a * 100 + 1 / 2⌋ : ℤ) : ℚ) := by exact_mod_cast hfl
      rw [hm']
      linarith

/-! ## The deal qualifier -/

/-- Claim C1, amended: when `analyzeProperty` reports a good deal, the score is at least 70 and
the unrounded cash flow and rent ratio meet their thresholds; the rounded `cashFlow` field of
the returned record meets `minCashFlow` when that threshold is a whole number, and the rounded
`rentRatio` field meets `minRentRatio` when that threshold has at most two decimals. -/
theorem isGoodDeal_thresholds (p : Property) (c : Config)
    (h : (analyzeProperty p c).isGoodDeal = true) :
    70 ≤ (analyzeProperty p c).score ∧
    ge (Analysis.cashFlow p c) (fin c.minCashFlow) = true ∧
    ge (Analysis.rentRatio p) (fin c.minRentRatio) = true ∧
    ((∃ k : ℤ, c.minCashFlow = k) →
      ge (analyzeProperty p c).cashFlow (fin c.minCashFlow) = true) ∧
    ((∃ k : ℤ, c.minRentRatio * 100 = k) →
      ge (analyzeProperty p c).rentRatio (fin c.minRentRatio) = true) := by
  simp only [analyzeProperty, Analysis.isGoodDeal, Bool.and_eq_true, decide_eq_true_eq] at h
  obtain ⟨⟨hcf, hrr⟩, hs⟩ := h
  refine ⟨?_, hcf, hrr, fun hk => ge_round_of_ge hk hcf, fun hk => ge_toFixed2_of_ge hk hrr⟩
  simp only [analyzeProperty, roundHalfUp_natCast]
  exact_mod_cast hs

/-- A listing priced 200000 renting for 3000 under the example configuration is a good deal
and meets all three thresholds. -/
theorem isGoodDeal_thresholds_witness :
    (analyzeProperty (bareListing (some 200000) (some 3000)) fixtureConfig).isGoodDeal = true ∧
    70 ≤ (analyzeProperty (bareListing (some 200000) (some 3000)) fixtureConfig).score :=
  ⟨by decide!,
    (isGoodDeal_thresholds (bareListing (some 200000) (some 3000)) fixtureConfig
      (by decide!)).1⟩

/-- Claim C1 as stated fails: a listing priced 100000 renting for 1504 with the rent-ratio
threshold at 1.502 is a good deal (the unrounded ratio is 1.504), yet the `rentRatio` field of
the returned record is 1.5, below the threshold. -/
theorem isGoodDeal_rounded_rentRatio_below_threshold :
    (analyzeProperty (bareListing (some 100000) (some 1504)) fineThresholdConfig).isGoodDeal
      = true ∧
    (analyzeProperty (bareListing (some 100000) (some 1504)) fineThresholdConfig).rentRatio
      = fin (3 / 2) ∧
    ge (analyzeProperty (bareListing (some 100000) (some 1504)) fineThresholdConfig).rentRatio
      (fin fineThresholdConfig.minRentRatio) = false := by
  decide!

/-! ## The metrics on finite values -/

namespace Analysis

theorem downPayment_eq (p : Property) (c : Config) :
    downPayment p c = fin (price p * (c.downPaymentPercent / 100)) := by
  simp [downPayment]

theorem loanAmount_eq (p : Property) (c : Config) :
    loanAmount p c = fin (price p - price p * (c.downPaymentPercent / 100)) := by
  simp [loanAmount, downPayment_eq]

theorem propertyTax_eq (p : Property) (c : Config) :
    propertyTax p c = fin (price p * (c.propertyTaxRate / 100) / 12) := by
  simp [propertyTax]

theorem maintenance_eq (p : Property) (c : Config) :
    maintenance p c = fin (price p * (c.maintenancePercent / 100) / 12) := by
  simp [maintenance]

theorem propertyManagement_eq (p : Property) (c : Config) :
    propertyManagement p c = fin (estimatedRent p * (c.propertyManagementPercent / 100)) := by
  simp [propertyManagement]

theorem vacancy_eq (p : Property) (c : Config) :
    vacancy p c = fin (estimatedRent p * (c.vacancyRate / 100)) := by
  simp [vacancy]

theorem rentRatio_eq (p : Property) (hp : price p ≠ 0) :
    rentRatio p = fin (estimatedRent p / price p * 100) := by
  simp [rentRatio, fin_div _ hp]

theorem capRate_eq (p : Property) (c : Config) (hp : price p ≠ 0) :
    capRate p c = fin ((estimatedRent p * 12 -
      (price p * (c.propertyTaxRate / 100) / 12 * 12 + insurance c * 12 +
        price p * (c.maintenancePercent / 100) / 12 * 12)) / price p * 100) := by
  simp [capRate, propertyTax_eq, maintenance_eq, fin_div _ hp]

end Analysis

/-! ## The score -/

/-- Claim C2, the code at interest rate 0: a listing priced 200000 renting for 3000, with a
down payment of 20 percent, has the mortgage payment `NaN`, hence cash flow and ROI `NaN`, so
that the tests `cashFlow > 0` and `roi > 10` are false and the returned score is
25 + 20 = 45; the section 4.1 metrics at the same input have a positive cash flow, a rent
ratio of at least 1, a cap rate above 8 and an ROI above 10, so that the weighted sum of the
claim is 100. -/
theorem score_at_zero_rate_differs_from_weighted_sum :
    0 < Analysis.price (bareListing (some 200000) (some 3000)) ∧
    0 < zeroRateConfig.downPaymentPercent ∧
    Analysis.monthlyMortgage (bareListing (some 200000) (some 3000)) zeroRateConfig = nan ∧
    Analysis.cashFlow (bareListing (some 200000) (some 3000)) zeroRateConfig = nan ∧
    Analysis.roi (bareListing (some 200000) (some 3000)) zeroRateConfig = nan ∧
    gt (Analysis.cashFlow (bareListing (some 200000) (some 3000)) zeroRateConfig) 0 = false ∧
    ge (Analysis.rentRatio (bareListing (some 200000) (some 3000)))
      (fin zeroRateConfig.minRentRatio) = true ∧
    gt (Analysis.capRate (bareListing (some 200000) (some 3000)) zeroRateConfig) 8 = true ∧
    gt (Analysis.roi (bareListing (some 200000) (some 3000)) zeroRateConfig) 10 = false ∧
    (analyzeProperty (bareListing (some 200000) (some 3000)) zeroRateConfig).score = 45 ∧
    0 < Spec.cashFlow 200000 3000 zeroRateConfig ∧
    zeroRateConfig.minRentRatio ≤ Spec.rentRatio 200000 3000 ∧
    8 < Spec.capRate 200000 3000 zeroRateConfig ∧
    10 < Spec.roi 200000 3000 zeroRateConfig ∧
    Spec.score 200000 3000 zeroRateConfig = 100 := by
  decide!

/-! ## Degenerate inputs -/

/-- Claim C3, the code at degenerate inputs: a listing without a price renting for 2000 gets
`rentRatio`, `capRate` and `roi` equal to `Infinity`, score 100 and `isGoodDeal = true`; a
listing with price 0 and rent 0 gets `rentRatio = NaN`; a listing priced 200000 with a down
payment of 0 percent gets `roi = -Infinity`.  None of the three is 0. -/
theorem analyzeProperty_zero_price_not_guarded :
    (analyzeProperty (bareListing none (some 2000)) fixtureConfig).rentRatio = posInf ∧
    (analyzeProperty (bareListing none (some 2000)) fixtureConfig).capRate = posInf ∧
    (analyzeProperty (bareListing none (some 2000)) fixtureConfig).roi = posInf ∧
    (analyzeProperty (bareListing none (some 2000)) fixtureConfig).score = 100 ∧
    (analyzeProperty (bareListing none (some 2000)) fixtureConfig).isGoodDeal = true ∧
    (analyzeProperty (bareListing (some 0) (some 0)) fixtureConfig).rentRatio = nan ∧
    (analyzeProperty (bareListing (some 0) (some 0)) fixtureConfig).capRate = negInf ∧
    (analyzeProperty (bareListing (some 200000) (some 2000)) noDownPaymentConfig).roi
      = negInf := by
  decide!

/-- With price 0 the quotient by the price is `NaN` or an infinity, whatever the rent. -/
theorem rentRatio_not_finite_of_price_zero (p : Property) (c : Config)
    (hp : Analysis.price p = 0) :
    isFinite (analyzeProperty p c).rentRatio = false := by
  simp only [analyzeProperty, Analysis.rentRatio, hp]
  show isFinite (toFixed2 (mul (div (fin (Analysis.estimatedRent p)) (fin 0)) (fin (100 : ℕ))))
    = false
  by_cases h0 : Analysis.estimatedRent p = 0
  · simp [div, h0, mul, toFixed2, isFinite]
  · by_cases hneg : Analysis.estimatedRent p < 0
    · simp [div, h0, hneg, infOfSign, mul, toFixed2, isFinite]
    · have h100 : ¬ ((100 : ℚ) < 0) := by norm_num
      simp [div, h0, hneg, infOfSign, mul, toFixed2, isFinite, h100]

/-- Claim C5, the code at rate 0: `calculateMortgage(P, 0)` is `NaN` for every finite
principal `P` (the formula computes `0/0`), not `P/360`, and `analyzeProperty` with
`interestRate = 0` returns `monthlyMortgage = NaN` for every listing. -/
theorem calculateMortgage_zero_rate_nan :
    (∀ P : ℚ, calculateMortgage (fin P) (fin 0) 30 = nan) ∧
    (∀ (p : Property) (c : Config),
      (analyzeProperty p { c with interestRate := 0 }).monthlyMortgage = nan) := by
  have hP : ∀ P : ℚ, calculateMortgage (fin P) (fin 0) 30 = nan := by
    intro P
    simp only [calculateMortgage, fin_div_hundred, fin_div_twelve, one_add_fin]
    rw [show 30 * 12 = 360 from rfl, pow_fin _ (by norm_num), fin_mul, fin_mul, fin_sub_one]
    norm_num
    exact zero_div_zero
  refine ⟨hP, fun p c => ?_⟩
  simp only [analyzeProperty, Analysis.monthlyMortgage, Analysis.loanAmount_eq]
  rw [hP]
  rfl

/-! ## Total expenses and its components -/

/-- Claim C10, amended: when the mortgage payment is finite, the six expense fields and
`totalExpenses` of the returned record are finite, the five rounded ones and the total are
whole numbers, and the total differs from the sum of the six fields by less than 3. -/
theorem totalExpenses_near_sum_of_fields (p : Property) (c : Config)
    (h : isFinite (Analysis.monthlyMortgage p c) = true) :
    ∃ mortgage tax maintenance management vacancy total : ℤ,
      (analyzeProperty p c).monthlyMortgage = fin mortgage ∧
      (analyzeProperty p c).propertyTax = fin tax ∧
      (analyzeProperty p c).maintenance = fin maintenance ∧
      (analyzeProperty p c).propertyManagement = fin management ∧
      (analyzeProperty p c).vacancy = fin vacancy ∧
      (analyzeProperty p c).totalExpenses = fin total ∧
      |(mortgage : ℚ) + tax + (analyzeProperty p c).insurance + maintenance + management +
        vacancy - total| < 3 := by
  obtain ⟨m, hm⟩ : ∃ m : ℚ, Analysis.monthlyMortgage p c = fin m := by
    cases hx : Analysis.monthlyMortgage p c with
    | fin m => exact ⟨m, rfl⟩
    | nan => rw [hx] at h; simp [isFinite] at h
    | posInf => rw [hx] at h; simp [isFinite] at h
    | negInf => rw [hx] at h; simp [isFinite] at h
  have htot : Analysis.totalExpenses p c =
      fin (m + Analysis.price p * (c.propertyTaxRate / 100) / 12 + Analysis.insurance c +
        Analysis.price p * (c.maintenancePercent / 100) / 12 +
        Analysis.estimatedRent p * (c.propertyManagementPercent / 100) +
        Analysis.estimatedRent p * (c.vacancyRate / 100)) := by
    simp only [Analysis.totalExpenses, hm, Analysis.propertyTax_eq, Analysis.maintenance_eq,
      Analysis.propertyManagement_eq, Analysis.vacancy_eq, fin_add]
  refine ⟨roundHalfUp m, roundHalfUp (Analysis.price p * (c.propertyTaxRate / 100) / 12),
    roundHalfUp (Analysis.price p * (c.maintenancePercent / 100) / 12),
    roundHalfUp (Analysis.estimatedRent p * (c.propertyManagementPercent / 100)),
    roundHalfUp (Analysis.estimatedRent p * (c.vacancyRate / 100)),
    roundHalfUp (m + Analysis.price p * (c.propertyTaxRate / 100) / 12 + Analysis.insurance c +
        Analysis.price p * (c.maintenancePercent / 100) / 12 +
        Analysis.estimatedRent p * (c.propertyManagementPercent / 100) +
        Analysis.estimatedRent p * (c.vacancyRate / 100)), ?_, ?_, ?_, ?_, ?_, ?_, ?_⟩
  · simp only [analyzeProperty, hm, JSNum.round]
  · simp only [analyzeProperty, Analysis.propertyTax_eq, JSNum.round]
  · simp only [analyzeProperty, Analysis.maintenance_eq, JSNum.round]
  · simp only [analyzeProperty, Analysis.propertyManagement_eq, JSNum.round]
  · simp only [analyzeProperty, Analysis.vacancy_eq, JSNum.round]
  · simp only [analyzeProperty, htot, JSNum.round]
  · simp only [analyzeProperty]
    have h1 := roundHalfUp_sub_le m
    have h1' := roundHalfUp_sub_gt m
    have h2 := roundHalfUp_sub_le (Analysis.price p * (c.propertyTaxRate / 100) / 12)
    have h2' := roundHalfUp_sub_gt (Analysis.price p * (c.propertyTaxRate / 100) / 12)
    have h3 := roundHalfUp_sub_le (Analysis.price p * (c.maintenancePercent / 100) / 12)
    have h3' := roundHalfUp_sub_gt (Analysis.price p * (c.maintenancePercent / 100) / 12)
    have h4 := roundHalfUp_sub_le
      (Analysis.estimatedRent p * (c.propertyManagementPercent / 100))
    have h4' := roundHalfUp_sub_gt
      (Analysis.estimatedRent p * (c.propertyManagementPercent / 100))
    have h5 := roundHalfUp_sub_le (Analysis.estimatedRent p * (c.vacancyRate / 100))
    have h5' := roundHalfUp_sub_gt (Analysis.estimatedRent p * (c.vacancyRate / 100))
    have h6 := roundHalfUp_sub_le
      (m + Analysis.price p * (c.propertyTaxRate / 100) / 12 + Analysis.insurance c +
        Analysis.price p * (c.maintenancePercent / 100) / 12 +
        Analysis.estimatedRent p * (c.propertyManagementPercent / 100) +
        Analysis.estimatedRent p * (c.vacancyRate / 100))
    have h6' := roundHalfUp_sub_gt
      (m + Analysis.price p * (c.propertyTaxRate / 100) / 12 + Analysis.insurance c +
        Analysis.price p * (c.maintenancePercent / 100) / 12 +
        Analysis.estimatedRent p * (c.propertyManagementPercent / 100) +
        Analysis.estimatedRent p * (c.vacancyRate / 100))
    rw [abs_lt]
    constructor <;> linarith

/-- The example listing under the example configuration has a finite mortgage payment, so its
total is within 3 of the sum of its six expense fields. -/
theorem totalExpenses_near_sum_of_fields_witness :
    isFinite (Analysis.monthlyMortgage (bareListing (some 200000) (some 2000)) fixtureConfig)
      = true ∧
    ∃ mortgage tax maintenance management vacancy total : ℤ,
      (analyzeProperty (bareListing (some 200000) (some 2000)) fixtureConfig).monthlyMortgage
        = fin mortgage ∧
      (analyzeProperty (bareListing (some 200000) (some 2000)) fixtureConfig).propertyTax
        = fin tax ∧
      (analyzeProperty (bareListing (some 200000) (some 2000)) fixtureConfig).maintenance
        = fin maintenance ∧
      (analyzeProperty (bareListing (some 200000) (some 2000)) fixtureConfig).propertyManagement
        = fin management ∧
      (analyzeProperty (bareListing (some 200000) (some 2000)) fixtureConfig).vacancy
        = fin vacancy ∧
      (analyzeProperty (bareListing (some 200000) (some 2000)) fixtureConfig).totalExpenses
        = fin total ∧
      |(mortgage : ℚ) + tax +
        (analyzeProperty (bareListing (some 200000) (some 2000)) fixtureConfig).insurance +
        maintenance + management + vacancy - total| < 3 :=
  ⟨by decide!,
    totalExpenses_near_sum_of_fields (bareListing (some 200000) (some 2000)) fixtureConfig
      (by decide!)⟩

/-- Claim C10 as stated fails: for a listing priced 377700 renting for 2996 under the example
configuration the six expense fields are 1812, 378, 150, 315, 300 and 240, which add up to
3195, while `totalExpenses` is 3193. -/
theorem totalExpenses_two_off_sum_of_fields :
    (analyzeProperty (bareListing (some 377700) (some 2996)) fixtureConfig).monthlyMortgage
      = fin 1812 ∧
    (analyzeProperty (bareListing (some 377700) (some 2996)) fixtureConfig).propertyTax
      = fin 378 ∧
    (analyzeProperty (bareListing (some 377700) (some 2996)) fixtureConfig).insurance = 150 ∧
    (analyzeProperty (bareListing (some 377700) (some 2996)) fixtureConfig).maintenance
      = fin 315 ∧
    (analyzeProperty (bareListing (some 377700) (some 2996)) fixtureConfig).propertyManagement
      = fin 300 ∧
    (analyzeProperty (bareListing (some 377700) (some 2996)) fixtureConfig).vacancy
      = fin 240 ∧
    (analyzeProperty (bareListing (some 377700) (some 2996)) fixtureConfig).totalExpenses
      = fin 3193 ∧
    ¬ (|(1812 : ℚ) + 378 + 150 + 315 + 300 + 240 - 3193| ≤ 1) := by
  refine ⟨by decide!, by decide!, by decide!, by decide!, by decide!, by decide!, by decide!,
    by norm_num [abs_le]⟩

/-! ## The scan loop -/

theorem ScanState.extend_nil (env : Providers) (st : ScanState) : st.extend env [] = st := by
  cases st; simp [ScanState.extend]

theorem ScanState.extend_extend (env : Providers) (st : ScanState)
    (xs ys : List ScoredListing) :
    (st.extend env xs).extend env ys = st.extend env (xs ++ ys) := by
  cases st; simp [ScanState.extend, Nat.add_assoc]

/-- One pass of the inner loop appends what the listing yields. -/
theorem scanListing_eq (env : Providers) (config : Config) (city : String) (st : ScanState)
    (property : Property) :
    scanListing env config city st property =
      st.extend env (scoredOf env config city property).toList := by
  unfold scanListing scoredOf
  cases hr : rentLookup env property with
  | none => simp [ScanState.extend_nil]
  | some rent =>
    cases st
    by_cases hg :
        (analyzeProperty (normalizeListing property city (orNum rent 0)) config).isGoodDeal = true
    · by_cases hs : sendPropertyAlert env
          (analyzeProperty (normalizeListing property city (orNum rent 0)) config) = true
      · simp [ScanState.extend, hg, hs]
      · simp [ScanState.extend, hg, hs]
    · simp [ScanState.extend, hg]

/-- The inner loop over a market's listings appends what each listing yields, in order. -/
theorem foldl_scanListing_eq (env : Providers) (config : Config) (city : String)
    (properties : List Property) (st : ScanState) :
    properties.foldl (scanListing env config city) st =
      st.extend env (properties.filterMap (scoredOf env config city)) := by
  induction properties generalizing st with
  | nil => simp [ScanState.extend_nil]
  | cons property rest ih =>
    rw [List.foldl_cons, ih, scanListing_eq, ScanState.extend_extend]
    congr 1
    cases hsc : scoredOf env config city property <;> simp [List.filterMap_cons, hsc]

/-- One pass of the outer loop appends what the market contributes. -/
theorem scanCity_eq (env : Providers) (config : Config) (st : ScanState) (city : String) :
    scanCity env config st city = st.extend env (marketListings env config city) := by
  unfold scanCity marketListings
  cases marketSearch env config city with
  | none => simp [ScanState.extend_nil]
  | some properties => exact foldl_scanListing_eq env config city properties st

/-- The outer loop appends what each market contributes, in order. -/
theorem foldl_scanCity_eq (env : Providers) (config : Config) (cities : List String)
    (st : ScanState) :
    cities.foldl (scanCity env config) st =
      st.extend env (cities.flatMap (marketListings env config)) := by
  induction cities generalizing st with
  | nil => simp [ScanState.extend_nil]
  | cons city rest ih =>
    rw [List.foldl_cons, ih, scanCity_eq, ScanState.extend_extend, List.flatMap_cons]

/-- The state at the end of the scan, in closed form. -/
theorem scanAll_eq (env : Providers) (config : Config) :
    scanAll env config =
      ScanState.init.extend env (config.targetCities.flatMap (marketListings env config)) :=
  foldl_scanCity_eq env config config.targetCities ScanState.init

theorem scanAll_allProperties (env : Providers) (config : Config) :
    (scanAll env config).allProperties =
      config.targetCities.flatMap (marketListings env config) := by
  rw [scanAll_eq]; simp [ScanState.extend, ScanState.init]

theorem scanAll_goodDeals (env : Providers) (config : Config) :
    (scanAll env config).goodDeals =
      (scanAll env config).allProperties.filter (fun x => x.isGoodDeal) := by
  rw [scanAll_eq]; simp [ScanState.extend, ScanState.init]

theorem scanAll_dispatched (env : Providers) (config : Config) :
    (scanAll env config).dispatched =
      (scanAll env config).allProperties.filter (fun x => x.isGoodDeal) := by
  rw [scanAll_eq]; simp [ScanState.extend, ScanState.init]

theorem scanAll_alertsSent (env : Providers) (config : Config) :
    (scanAll env config).alertsSent =
      ((scanAll env config).dispatched.filter (sendPropertyAlert env)).length := by
  rw [scanAll_eq]; simp [ScanState.extend, ScanState.init]

/-! ## Ranking -/

theorem compareScore_total : IsTotal ScoredListing (fun a b => compareScore a b ≤ 0) :=
  ⟨fun a b => by
    simp only [compareScore]
    rcases le_total a.score b.score with h | h
    · right; linarith
    · left; linarith⟩

theorem compareScore_trans : IsTrans ScoredListing (fun a b => compareScore a b ≤ 0) :=
  ⟨fun a b c hab hbc => by
    simp only [compareScore] at hab hbc ⊢
    linarith⟩

theorem sortByScore_perm (l : List ScoredListing) : (sortByScore l).Perm l :=
  List.perm_insertionSort _ l

theorem sortByScore_length (l : List ScoredListing) : (sortByScore l).length = l.length :=
  List.length_insertionSort _ l

/-- The sorted list is non-increasing in score. -/
theorem sortByScore_sorted (l : List ScoredListing) :
    (sortByScore l).Pairwise (fun a b => b.score ≤ a.score) := by
  haveI := compareScore_total
  haveI := compareScore_trans
  have h := List.sorted_insertionSort (fun a b : ScoredListing => compareScore a b ≤ 0) l
  refine List.Pairwise.imp ?_ h
  intro a b hab
  simp only [compareScore] at hab
  linarith

/-- Stability: the listings of any one score appear in the sorted list in their original
order. -/
theorem sortByScore_filter_score (s : ℤ) (l : List ScoredListing) :
    (sortByScore l).filter (fun x => decide (x.score = s)) =
      l.filter (fun x => decide (x.score = s)) := by
  induction l with
  | nil => rfl
  | cons a l ih =>
    have hcons : sortByScore (a :: l) =
        ((sortByScore l).takeWhile fun b => decide ¬ compareScore a b ≤ 0) ++
          a :: (sortByScore l).dropWhile fun b => decide ¬ compareScore a b ≤ 0 :=
      List.insertionSort_cons_eq_take_drop _ a l
    have hsplit := List.takeWhile_append_dropWhile
      (fun b => decide ¬ compareScore a b ≤ 0) (sortByScore l)
    by_cases ha : a.score = s
    · have htake : ((sortByScore l).takeWhile fun b => decide ¬ compareScore a b ≤ 0).filter
          (fun x => decide (x.score = s)) = [] := by
        rw [List.filter_eq_nil_iff]
        intro b hb
        have hb' := List.mem_takeWhile_imp hb
        simp only [compareScore, decide_eq_true_eq] at hb' ⊢
        intro hbs
        apply hb'
        rw [hbs, ha]
        simp
      have hdrop : ((sortByScore l).dropWhile fun b => decide ¬ compareScore a b ≤ 0).filter
          (fun x => decide (x.score = s)) = l.filter (fun x => decide (x.score = s)) := by
        rw [← ih]
        conv_rhs => rw [← hsplit]
        rw [List.filter_append, htake, List.nil_append]
      rw [hcons, List.filter_append, htake, List.nil_append, List.filter_cons_of_pos (by simpa using ha),
        hdrop, List.filter_cons_of_pos (by simpa using ha)]
    · rw [hcons, List.filter_append, List.filter_cons_of_neg (by simpa using ha),
        ← List.filter_append, hsplit, ih, List.filter_cons_of_neg (by simpa using ha)]

/-! ## The scan result -/

/-- Claim C6: a scan with a configuration answers with a result whose `properties` list is the
first 20 entries of the accumulated listings sorted by score; the sorted list is a
rearrangement of the accumulated one, the returned list is non-increasing in score and has
length `min 20 total`, every listing left out scores no more than every listing returned, and
for each score the returned listings of that score are an initial part of the accumulated
listings of that score, in scan order. -/
theorem scan_properties_top_twenty (env : Providers) (config : Config) :
    ∃ res : ScanResult,
      scanProperties env (some config) = Except.ok res ∧
      res.properties = (sortByScore (scanAll env config).allProperties).take 20 ∧
      (sortByScore (scanAll env config).allProperties).Perm (scanAll env config).allProperties ∧
      res.properties.Pairwise (fun a b => b.score ≤ a.score) ∧
      res.properties.length = min 20 (scanAll env config).allProperties.length ∧
      (∀ a ∈ (sortByScore (scanAll env config).allProperties).drop 20,
        ∀ b ∈ res.properties, a.score ≤ b.score) ∧
      (∀ s : ℤ, (sortByScore (scanAll env config).allProperties).filter
          (fun x => decide (x.score = s)) =
        (scanAll env config).allProperties.filter (fun x => decide (x.score = s))) ∧
      (∀ s : ℤ, res.properties.filter (fun x => decide (x.score = s)) <+:
        (scanAll env config).allProperties.filter (fun x => decide (x.score = s))) := by
  refine ⟨_, rfl, rfl, sortByScore_perm _, ?_, ?_, ?_, fun s => sortByScore_filter_score s _, ?_⟩
  · exact (sortByScore_sorted _).sublist (List.take_sublist _ _)
  · simp [sortByScore_length]
  · intro a ha b hb
    have hsorted := sortByScore_sorted (scanAll env config).allProperties
    rw [← List.take_append_drop 20 (sortByScore (scanAll env config).allProperties),
      List.pairwise_append] at hsorted
    exact hsorted.2.2 b hb a ha
  · intro s
    rw [← sortByScore_filter_score s (scanAll env config).allProperties]
    exact (List.take_prefix 20 _).filter _

/-- Claim C7: `stats.total` is the number of all scored listings, `stats.goodDeals` is the
number of those among all of them that are good deals, the returned list is no longer than
`stats.total`, and `stats.goodDeals` is at most `stats.total`. -/
theorem scan_stats_count_full_collection (env : Providers) (config : Config) :
    ∃ res : ScanResult,
      scanProperties env (some config) = Except.ok res ∧
      res.stats.total = (scanAll env config).allProperties.length ∧
      res.stats.goodDeals =
        ((scanAll env config).allProperties.filter (fun x => x.isGoodDeal)).length ∧
      res.properties.length ≤ res.stats.total ∧
      res.stats.goodDeals ≤ res.stats.total := by
  refine ⟨_, rfl, sortByScore_length _, ?_, ?_, ?_⟩
  · show (scanAll env config).goodDeals.length = _
    rw [scanAll_goodDeals]
  · show ((sortByScore (scanAll env config).allProperties).take 20).length ≤
      (sortByScore (scanAll env config).allProperties).length
    exact (List.take_sublist _ _).length_le
  · show (scanAll env config).goodDeals.length ≤
      (sortByScore (scanAll env config).allProperties).length
    rw [scanAll_goodDeals, sortByScore_length]
    exact List.length_filter_le _ _

/-- Claim C8: a scan with a configuration always answers with a result; the listings it has
scored, before sorting, are the contributions of the target markets in order, where a market
whose search fails contributes nothing and a market whose search succeeds contributes one
scored listing for each listing whose rent estimate succeeds, in provider order, so that the
contribution and the failed estimates together count the market's listings. -/
theorem scan_isolates_lookup_failures (env : Providers) (config : Config) :
    (∃ res : ScanResult, scanProperties env (some config) = Except.ok res) ∧
    (scanAll env config).allProperties =
      config.targetCities.flatMap (marketListings env config) ∧
    (∀ city : String, marketSearch env config city = none →
      marketListings env config city = []) ∧
    (∀ (city : String) (properties : List Property),
      marketSearch env config city = some properties →
      marketListings env config city =
        properties.filterMap (fun property =>
          (rentLookup env property).map fun rent =>
            analyzeProperty (normalizeListing property city (orNum rent 0)) config) ∧
      (marketListings env config city).length +
        properties.countP (fun property => (rentLookup env property).isNone) =
          properties.length ∧
      (properties.length = 10 →
        properties.countP (fun property => (rentLookup env property).isNone) = 1 →
        (marketListings env config city).length = 9)) := by
  refine ⟨⟨_, rfl⟩, scanAll_allProperties env config, ?_, ?_⟩
  · intro city h
    simp [marketListings, h]
  · intro city properties h
    have hm : marketListings env config city =
        properties.filterMap (scoredOf env config city) := by
      simp [marketListings, h]
    have hcount : (properties.filterMap (scoredOf env config city)).length +
        properties.countP (fun property => (rentLookup env property).isNone) =
          properties.length := by
      clear hm h
      induction properties with
      | nil => rfl
      | cons property rest ih =>
        cases hr : rentLookup env property with
        | none =>
          have hs : scoredOf env config city property = none := by simp [scoredOf, hr]
          rw [List.filterMap_cons_none hs, List.countP_cons, List.length_cons]
          simp only [hr, Option.isNone_none, if_true]
          omega
        | some rent =>
          have hs : scoredOf env config city property =
              some (analyzeProperty (normalizeListing property city (orNum rent 0)) config) := by
            simp [scoredOf, hr]
          rw [List.filterMap_cons_some hs, List.countP_cons, List.length_cons, List.length_cons]
          simp only [hr, Option.isNone_some]
          simp only [Bool.false_eq_true, if_false]
          omega
    rw [← hm] at hcount
    exact ⟨hm, hcount, fun h10 h1 => by omega⟩

/-- Claim C9: the listings handed to `sendPropertyAlert` are exactly the scored listings that
are good deals, in scan order; `stats.alertsSent` is the number of them for which the dispatch
returned success; the scored listings do not depend on the mail transport; and
`alertsSent ≤ goodDeals ≤ total`. -/
theorem scan_alerts_only_good_deals (env : Providers) (config : Config) :
    ∃ res : ScanResult,
      scanProperties env (some config) = Except.ok res ∧
      (scanAll env config).dispatched =
        (scanAll env config).allProperties.filter (fun x => x.isGoodDeal) ∧
      res.stats.alertsSent =
        ((scanAll env config).dispatched.filter (sendPropertyAlert env)).length ∧
      res.stats.goodDeals = (scanAll env config).dispatched.length ∧
      (∀ sendMail : ScoredListing → Except String Unit,
        (scanAll { env with sendMail := sendMail } config).allProperties =
          (scanAll env config).allProperties) ∧
      res.stats.alertsSent ≤ res.stats.goodDeals ∧
      res.stats.goodDeals ≤ res.stats.total := by
  refine ⟨_, rfl, scanAll_dispatched env config, scanAll_alertsSent env config, ?_, ?_, ?_, ?_⟩
  · show (scanAll env config).goodDeals.length = _
    rw [scanAll_goodDeals, scanAll_dispatched]
  · intro sendMail
    rw [scanAll_allProperties, scanAll_allProperties]
    rfl
  · show (scanAll env config).alertsSent ≤ (scanAll env config).goodDeals.length
    rw [scanAll_alertsSent, scanAll_goodDeals, scanAll_dispatched]
    exact List.length_filter_le _ _
  · show (scanAll env config).goodDeals.length ≤
      (sortByScore (scanAll env config).allProperties).length
    rw [scanAll_goodDeals, sortByScore_length]
    exact List.length_filter_le _ _

/-! ## The attainable scores -/

/-- The accumulated score is the sum of the weights whose test passed. -/
theorem Analysis.score_eq (p : Property) (c : Config) :
    Analysis.score p c =
      (if gt (Analysis.cashFlow p c) 0 then 30 else 0) +
      (if ge (Analysis.rentRatio p) (fin c.minRentRatio) then 25 else 0) +
      (if gt (Analysis.capRate p c) 8 then 20 else 0) +
      (if gt (Analysis.roi p c) 10 then 25 else 0) := by
  unfold Analysis.score
  split_ifs <;> rfl

/-- The returned score is the accumulated score: `Math.round` leaves it unchanged. -/
theorem analyzeProperty_score (p : Property) (c : Config) :
    (analyzeProperty p c).score = (Analysis.score p c : ℤ) := by
  simp only [analyzeProperty, roundHalfUp_natCast]

/-- Claim C11: for every listing and configuration the returned score is the sum of a subset
of the weights 30, 25, 20, 25, hence one of 0, 20, 25, 30, 45, 50, 55, 70, 75, 80, 100, and
lies between 0 and 100. -/
theorem score_is_subset_sum (p : Property) (c : Config) :
    (∃ b₁ b₂ b₃ b₄ : Bool,
      (analyzeProperty p c).score =
        (if b₁ then 30 else 0) + (if b₂ then 25 else 0) + (if b₃ then 20 else 0) +
          (if b₄ then 25 else 0)) ∧
    (analyzeProperty p c).score ∈ ([0, 20, 25, 30, 45, 50, 55, 70, 75, 80, 100] : List ℤ) ∧
    0 ≤ (analyzeProperty p c).score ∧ (analyzeProperty p c).score ≤ 100 := by
  rw [analyzeProperty_score, Analysis.score_eq]
  refine ⟨⟨gt (Analysis.cashFlow p c) 0, ge (Analysis.rentRatio p) (fin c.minRentRatio),
    gt (Analysis.capRate p c) 8, gt (Analysis.roi p c) 10, ?_⟩, ?_, ?_, ?_⟩ <;>
  split_ifs <;> simp

/-! ## The insurance default -/

/-- Claim C12, the code at a configured insurance of 0: `config.insuranceMonthly || 150`
yields 150 both when the field is absent and when it is 0, and the configured value only when
that is not 0; the example listing with insurance 0 is charged 150, which gives total expenses
1836 and cash flow 164 as with a configured 150. -/
theorem insurance_zero_replaced_by_default :
    (∀ (p : Property) (c : Config),
      (analyzeProperty p { c with insuranceMonthly := some 0 }).insurance = 150) ∧
    (∀ (p : Property) (c : Config),
      (analyzeProperty p { c with insuranceMonthly := none }).insurance = 150) ∧
    (∀ (p : Property) (c : Config) (v : ℚ), v ≠ 0 →
      (analyzeProperty p { c with insuranceMonthly := some v }).insurance = v) ∧
    (analyzeProperty (bareListing (some 200000) (some 2000)) zeroInsuranceConfig).insurance
      = 150 ∧
    (analyzeProperty (bareListing (some 200000) (some 2000)) zeroInsuranceConfig).totalExpenses
      = fin 1836 ∧
    (analyzeProperty (bareListing (some 200000) (some 2000)) zeroInsuranceConfig).cashFlow
      = fin 164 := by
  refine ⟨fun p c => ?_, fun p c => ?_, fun p c v hv => ?_, by decide!, by decide!, by decide!⟩
  · simp [analyzeProperty, Analysis.insurance, orNum]
  · simp [analyzeProperty, Analysis.insurance, orNum]
  · simp [analyzeProperty, Analysis.insurance, orNum, hv]

/-! ## Rounding of the returned fields -/

theorem roundedToInteger_round (x : ℚ) : RoundedToInteger (JSNum.round (fin x)) (fin x) := by
  refine ⟨roundHalfUp x, x, rfl, rfl, ?_⟩
  rw [abs_le]
  have h1 := roundHalfUp_sub_le x
  have h2 := roundHalfUp_sub_gt x
  constructor <;> linarith

theorem toFixed2Value_hundredths (a : ℚ) : ∃ k : ℤ, toFixed2Value a = (k : ℚ) / 100 := by
  unfold toFixed2Value
  split_ifs
  · exact ⟨-⌊-a * 100 + 1 / 2⌋, by push_cast; ring⟩
  · exact ⟨⌊a * 100 + 1 / 2⌋, rfl⟩

theorem toFixed2Value_near (a : ℚ) : |toFixed2Value a - a| ≤ 1 / 200 := by
  unfold toFixed2Value
  rw [abs_le]
  split_ifs
  · have h1 := Int.floor_le (-a * 100 + 1 / 2)
    have h2 := Int.lt_floor_add_one (-a * 100 + 1 / 2)
    constructor <;> linarith
  · have h1 := Int.floor_le (a * 100 + 1 / 2)
    have h2 := Int.lt_floor_add_one (a * 100 + 1 / 2)
    constructor <;> linarith

theorem roundedToCents_toFixed2 (x : ℚ) : RoundedToCents (toFixed2 (fin x)) (fin x) := by
  obtain ⟨k, hk⟩ := toFixed2Value_hundredths x
  refine ⟨k, x, ?_, rfl, ?_⟩
  · simp only [toFixed2, hk]
  · rw [← hk]
    exact toFixed2Value_near x

/-- With a positive interest rate the mortgage payment is finite. -/
theorem Analysis.monthlyMortgage_fin (p : Property) (c : Config) (hr : 0 < c.interestRate) :
    ∃ m : ℚ, Analysis.monthlyMortgage p c = fin m := by
  have hpos : 0 < c.interestRate / 100 / 12 := by positivity
  have hd := compound_sub_one_pos hpos (show 360 ≠ 0 by norm_num)
  exact ⟨_, by rw [Analysis.monthlyMortgage, Analysis.loanAmount_eq,
    calculateMortgage_fin _ _ hd.ne']⟩

/-- With a finite mortgage payment the total expenses and the cash flow are finite. -/
theorem Analysis.cashFlow_fin (p : Property) (c : Config) {m : ℚ}
    (hm : Analysis.monthlyMortgage p c = fin m) :
    ∃ t : ℚ, Analysis.totalExpenses p c = fin t ∧
      Analysis.cashFlow p c = fin (Analysis.estimatedRent p - t) := by
  refine ⟨m + Analysis.price p * (c.propertyTaxRate / 100) / 12 + Analysis.insurance c +
    Analysis.price p * (c.maintenancePercent / 100) / 12 +
    Analysis.estimatedRent p * (c.propertyManagementPercent / 100) +
    Analysis.estimatedRent p * (c.vacancyRate / 100), ?_, ?_⟩
  · simp only [Analysis.totalExpenses, hm, Analysis.propertyTax_eq, Analysis.maintenance_eq,
      Analysis.propertyManagement_eq, Analysis.vacancy_eq, fin_add]
  · simp only [Analysis.cashFlow, Analysis.totalExpenses, hm, Analysis.propertyTax_eq,
      Analysis.maintenance_eq, Analysis.propertyManagement_eq, Analysis.vacancy_eq, fin_add,
      fin_sub]

/-- With a finite cash flow and a positive down payment the return on investment is
`cashFlow*12/downPayment*100`. -/
theorem Analysis.roi_eq (p : Property) (c : Config) {x : ℚ}
    (hx : Analysis.cashFlow p c = fin x) (hp : 0 < Analysis.price p)
    (hd : 0 < c.downPaymentPercent) :
    Analysis.roi p c =
      fin (x * 12 / (Analysis.price p * (c.downPaymentPercent / 100)) * 100) := by
  have hne : Analysis.price p * (c.downPaymentPercent / 100) ≠ 0 := by positivity
  simp only [Analysis.roi, hx, Analysis.downPayment_eq, fin_mul_twelve, fin_div _ hne,
    fin_mul_hundred]

/-- Claim C13, amended: for a listing with a positive price and a configuration with positive
down payment percentage and interest rate, each of the seven computed currency fields of the
returned record is the nearest-integer rounding of its computed amount and each of the three
percentage fields is its computed value rounded to 2 decimal places, while the `insurance`
field is the insurance expense used in the computation, returned without rounding. -/
theorem computed_fields_rounded (p : Property) (c : Config) (hp : 0 < Analysis.price p)
    (hd : 0 < c.downPaymentPercent) (hr : 0 < c.interestRate) :
    RoundedToInteger (analyzeProperty p c).monthlyMortgage (Analysis.monthlyMortgage p c) ∧
    RoundedToInteger (analyzeProperty p c).propertyTax (Analysis.propertyTax p c) ∧
    RoundedToInteger (analyzeProperty p c).maintenance (Analysis.maintenance p c) ∧
    RoundedToInteger (analyzeProperty p c).propertyManagement
      (Analysis.propertyManagement p c) ∧
    RoundedToInteger (analyzeProperty p c).vacancy (Analysis.vacancy p c) ∧
    RoundedToInteger (analyzeProperty p c).totalExpenses (Analysis.totalExpenses p c) ∧
    RoundedToInteger (analyzeProperty p c).cashFlow (Analysis.cashFlow p c) ∧
    RoundedToCents (analyzeProperty p c).rentRatio (Analysis.rentRatio p) ∧
    RoundedToCents (analyzeProperty p c).capRate (Analysis.capRate p c) ∧
    RoundedToCents (analyzeProperty p c).roi (Analysis.roi p c) ∧
    (analyzeProperty p c).insurance = Analysis.insurance c := by
  obtain ⟨m, hm⟩ := Analysis.monthlyMortgage_fin p c hr
  obtain ⟨t, ht, hcf⟩ := Analysis.cashFlow_fin p c hm
  have hroi := Analysis.roi_eq p c hcf hp hd
  refine ⟨?_, ?_, ?_, ?_, ?_, ?_, ?_, ?_, ?_, ?_, rfl⟩
  · simp only [analyzeProperty, hm]; exact roundedToInteger_round _
  · simp only [analyzeProperty, Analysis.propertyTax_eq]; exact roundedToInteger_round _
  · simp only [analyzeProperty, Analysis.maintenance_eq]; exact roundedToInteger_round _
  · simp only [analyzeProperty, Analysis.propertyManagement_eq]
    exact roundedToInteger_round _
  · simp only [analyzeProperty, Analysis.vacancy_eq]; exact roundedToInteger_round _
  · simp only [analyzeProperty, ht]; exact roundedToInteger_round _
  · simp only [analyzeProperty, hcf]; exact roundedToInteger_round _
  · simp only [analyzeProperty, Analysis.rentRatio_eq p hp.ne']
    exact roundedToCents_toFixed2 _
  · simp only [analyzeProperty, Analysis.capRate_eq p c hp.ne']
    exact roundedToCents_toFixed2 _
  · simp only [analyzeProperty, hroi]; exact roundedToCents_toFixed2 _

/-- The example listing under the example configuration: its computed fields are rounded. -/
theorem computed_fields_rounded_witness :
    0 < Analysis.price (bareListing (some 200000) (some 2000)) ∧
    0 < fixtureConfig.downPaymentPercent ∧ 0 < fixtureConfig.interestRate ∧
    RoundedToInteger
      (analyzeProperty (bareListing (some 200000) (some 2000)) fixtureConfig).cashFlow
      (Analysis.cashFlow (bareListing (some 200000) (some 2000)) fixtureConfig) :=
  ⟨by decide!, by decide!, by decide!,
    (computed_fields_rounded (bareListing (some 200000) (some 2000)) fixtureConfig
      (by decide!) (by decide!) (by decide!)).2.2.2.2.2.2.1⟩

/-- Claim C13 as stated fails for `insurance`: with a positive price, down payment and
interest rate and a configured insurance of 150.50, the returned `insurance` field is 150.5,
which is not a whole number. -/
theorem insurance_field_not_rounded :
    0 < Analysis.price (bareListing (some 200000) (some 2000)) ∧
    0 < centsInsuranceConfig.downPaymentPercent ∧ 0 < centsInsuranceConfig.interestRate ∧
    (analyzeProperty (bareListing (some 200000) (some 2000)) centsInsuranceConfig).insurance
      = 301 / 2 ∧
    ¬ ∃ n : ℤ,
      (analyzeProperty (bareListing (some 200000) (some 2000)) centsInsuranceConfig).insurance
        = n := by
  refine ⟨by decide!, by decide!, by decide!, by decide!, ?_⟩
  have hins : (analyzeProperty (bareListing (some 200000) (some 2000))
      centsInsuranceConfig).insurance = 301 / 2 := by decide!
  rw [hins]
  rintro ⟨n, hn⟩
  have h2 : (301 : ℚ) = 2 * n := by linarith
  have h3 : (301 : ℤ) = 2 * n := by exact_mod_cast h2
  omega

/-! ## The end-to-end example -/

/-- The computed fields depend on the listing only through its price and rent estimate, and on
the configuration only through its thresholds, rates and insurance. -/
theorem analyzeProperty_congr (p q : Property) (c d : Config)
    (h₁ : p.price = q.price) (h₂ : p.rentEstimate = q.rentEstimate)
    (h₃ : c.minRentRatio = d.minRentRatio) (h₄ : c.minCashFlow = d.minCashFlow)
    (h₅ : c.downPaymentPercent = d.downPaymentPercent) (h₆ : c.interestRate = d.interestRate)
    (h₇ : c.propertyTaxRate = d.propertyTaxRate) (h₈ : c.insuranceMonthly = d.insuranceMonthly)
    (h₉ : c.maintenancePercent = d.maintenancePercent) (h₁₀ : c.vacancyRate = d.vacancyRate)
    (h₁₁ : c.propertyManagementPercent = d.propertyManagementPercent) :
    (analyzeProperty p c).monthlyMortgage = (analyzeProperty q d).monthlyMortgage ∧
    (analyzeProperty p c).propertyTax = (analyzeProperty q d).propertyTax ∧
    (analyzeProperty p c).maintenance = (analyzeProperty q d).maintenance ∧
    (analyzeProperty p c).propertyManagement = (analyzeProperty q d).propertyManagement ∧
    (analyzeProperty p c).vacancy = (analyzeProperty q d).vacancy ∧
    (analyzeProperty p c).totalExpenses = (analyzeProperty q d).totalExpenses ∧
    (analyzeProperty p c).cashFlow = (analyzeProperty q d).cashFlow ∧
    (analyzeProperty p c).rentRatio = (analyzeProperty q d).rentRatio ∧
    (analyzeProperty p c).capRate = (analyzeProperty q d).capRate ∧
    (analyzeProperty p c).roi = (analyzeProperty q d).roi ∧
    (analyzeProperty p c).score = (analyzeProperty q d).score ∧
    (analyzeProperty p c).isGoodDeal = (analyzeProperty q d).isGoodDeal := by
  cases p; cases q; cases c; cases d
  simp only at h₁ h₂ h₃ h₄ h₅ h₆ h₇ h₈ h₉ h₁₀ h₁₁
  subst h₁ h₂ h₃ h₄ h₅ h₆ h₇ h₈ h₉ h₁₀ h₁₁
  exact ⟨rfl, rfl, rfl, rfl, rfl, rfl, rfl, rfl, rfl, rfl, rfl, rfl⟩

/-- Claim C14: for a listing priced 200000 with rent estimate 2000 and a configuration with
down payment 20, interest rate 6, property tax rate 1.2, maintenance 1, vacancy 8, property
management 10, insurance 150, minimum rent ratio 1.0 and minimum cash flow 200,
`analyzeProperty` returns mortgage 959, rent ratio 1.0, property tax 200, maintenance 167,
property management 200, vacancy 160, total expenses 1836, cash flow 164, cap rate 8.9,
ROI 4.92, score 75 and `isGoodDeal = false`. -/
theorem golden_fixture (p : Property) (c : Config)
    (hprice : p.price = some 200000) (hrent : p.rentEstimate = some 2000)
    (hdown : c.downPaymentPercent = 20) (hrate : c.interestRate = 6)
    (htax : c.propertyTaxRate = 12 / 10) (hmaint : c.maintenancePercent = 1)
    (hvac : c.vacancyRate = 8) (hmgmt : c.propertyManagementPercent = 10)
    (hins : c.insuranceMonthly = some 150) (hratio : c.minRentRatio = 1)
    (hflow : c.minCashFlow = 200) :
    (analyzeProperty p c).monthlyMortgage = fin 959 ∧
    (analyzeProperty p c).rentRatio = fin 1 ∧
    (analyzeProperty p c).propertyTax = fin 200 ∧
    (analyzeProperty p c).maintenance = fin 167 ∧
    (analyzeProperty p c).propertyManagement = fin 200 ∧
    (analyzeProperty p c).vacancy = fin 160 ∧
    (analyzeProperty p c).totalExpenses = fin 1836 ∧
    (analyzeProperty p c).cashFlow = fin 164 ∧
    (analyzeProperty p c).capRate = fin (89 / 10) ∧
    (analyzeProperty p c).roi = fin (492 / 100) ∧
    (analyzeProperty p c).score = 75 ∧
    (analyzeProperty p c).isGoodDeal = false := by
  obtain ⟨e₁, e₂, e₃, e₄, e₅, e₆, e₇, e₈, e₉, e₁₀, e₁₁, e₁₂⟩ :=
    analyzeProperty_congr p (bareListing (some 200000) (some 2000)) c fixtureConfig
      hprice hrent hratio hflow hdown hrate htax hins hmaint hvac hmgmt
  exact ⟨e₁.trans (by decide!), e₈.trans (by decide!), e₂.trans (by decide!),
    e₃.trans (by decide!), e₄.trans (by decide!), e₅.trans (by decide!),
    e₆.trans (by decide!), e₇.trans (by decide!), e₉.trans (by decide!),
    e₁₀.trans (by decide!), e₁₁.trans (by decide!), e₁₂.trans (by decide!)⟩

/-- The bare listing and the example configuration meet the premises of the example, so the
listed outputs are what `analyzeProperty` returns for them. -/
theorem golden_fixture_witness :
    (analyzeProperty (bareListing (some 200000) (some 2000)) fixtureConfig).monthlyMortgage
      = fin 959 ∧
    (analyzeProperty (bareListing (some 200000) (some 2000)) fixtureConfig).rentRatio
      = fin 1 ∧
    (analyzeProperty (bareListing (some 200000) (some 2000)) fixtureConfig).propertyTax
      = fin 200 ∧
    (analyzeProperty (bareListing (some 200000) (some 2000)) fixtureConfig).maintenance
      = fin 167 ∧
    (analyzeProperty (bareListing (some 200000) (some 2000)) fixtureConfig).propertyManagement
      = fin 200 ∧
    (analyzeProperty (bareListing (some 200000) (some 2000)) fixtureConfig).vacancy
      = fin 160 ∧
    (analyzeProperty (bareListing (some 200000) (some 2000)) fixtureConfig).totalExpenses
      = fin 1836 ∧
    (analyzeProperty (bareListing (some 200000) (some 2000)) fixtureConfig).cashFlow
      = fin 164 ∧
    (analyzeProperty (bareListing (some 200000) (some 2000)) fixtureConfig).capRate
      = fin (89 / 10) ∧
    (analyzeProperty (bareListing (some 200000) (some 2000)) fixtureConfig).roi
      = fin (492 / 100) ∧
    (analyzeProperty (bareListing (some 200000) (some 2000)) fixtureConfig).score = 75 ∧
    (analyzeProperty (bareListing (some 200000) (some 2000)) fixtureConfig).isGoodDeal
      = false :=
  golden_fixture (bareListing (some 200000) (some 2000)) fixtureConfig rfl rfl rfl rfl rfl rfl
    rfl rfl rfl rfl rfl

/-! ## Return on investment and cash flow -/

/-- With a positive down payment, a return on investment above 10 needs a positive cash
flow. -/
theorem Analysis.cashFlow_pos_of_roi (p : Property) (c : Config) (hp : 0 < Analysis.price p)
    (hd : 0 < c.downPaymentPercent) (h : gt (Analysis.roi p c) 10 = true) :
    gt (Analysis.cashFlow p c) 0 = true := by
  have hdp : 0 < Analysis.price p * (c.downPaymentPercent / 100) := by positivity
  cases hx : Analysis.cashFlow p c with
  | nan =>
    rw [Analysis.roi, hx] at h
    have hnan : (nan * (12 : JSNum) / Analysis.downPayment p c * 100).gt 10 = false := rfl
    rw [hnan] at h
    exact absurd h (by decide)
  | posInf => rfl
  | negInf =>
    rw [Analysis.roi, hx, Analysis.downPayment_eq] at h
    have h1 : negInf * (12 : JSNum) = negInf := by decide
    have h2 : negInf / fin (Analysis.price p * (c.downPaymentPercent / 100)) = negInf := by
      show JSNum.div negInf (fin _) = negInf
      simp [JSNum.div, infOfSign, hdp.le]
    have h3 : negInf * (100 : JSNum) = negInf := by decide
    rw [h1, h2, h3] at h
    exact absurd h (by decide)
  | fin x =>
    rw [Analysis.roi_eq p c hx hp hd, ofNat_eq] at h
    simp only [gt, decide_eq_true_eq] at h
    rw [ofNat_eq]
    simp only [gt, decide_eq_true_eq, Nat.cast_zero]
    by_contra hneg
    have hx0 : x ≤ 0 := not_lt.mp hneg
    have h12 : x * 12 / (Analysis.price p * (c.downPaymentPercent / 100)) ≤ 0 :=
      div_nonpos_of_nonpos_of_nonneg (by linarith) hdp.le
    have h10 : ((10 : ℕ) : ℚ) = 10 := by norm_num
    rw [h10] at h
    linarith

/-- Claim C15: for a listing with a positive price and a configuration with a positive down
payment percentage, a computed ROI above 10 implies a computed cash flow above 0; so the
returned score is never 70, and a score of at least 70, in particular a good deal, means a
score of at least 75 and a positive computed cash flow, whatever `minCashFlow` is. -/
theorem score_seventy_needs_cash_flow (p : Property) (c : Config)
    (hp : 0 < Analysis.price p) (hd : 0 < c.downPaymentPercent) :
    (gt (Analysis.roi p c) 10 = true → gt (Analysis.cashFlow p c) 0 = true) ∧
    (analyzeProperty p c).score ≠ 70 ∧
    (70 ≤ (analyzeProperty p c).score →
      75 ≤ (analyzeProperty p c).score ∧ gt (Analysis.cashFlow p c) 0 = true) ∧
    ((analyzeProperty p c).isGoodDeal = true →
      75 ≤ (analyzeProperty p c).score ∧ gt (Analysis.cashFlow p c) 0 = true) := by
  have key := Analysis.cashFlow_pos_of_roi p c hp hd
  have hscore : 70 ≤ (analyzeProperty p c).score →
      75 ≤ (analyzeProperty p c).score ∧ gt (Analysis.cashFlow p c) 0 = true := by
    rw [analyzeProperty_score, Analysis.score_eq]
    revert key
    cases gt (Analysis.roi p c) 10 <;> cases gt (Analysis.cashFlow p c) 0 <;>
      cases ge (Analysis.rentRatio p) (fin c.minRentRatio) <;>
      cases gt (Analysis.capRate p c) 8 <;> simp
  refine ⟨key, ?_, hscore, ?_⟩
  · rw [analyzeProperty_score, Analysis.score_eq]
    revert key
    cases gt (Analysis.roi p c) 10 <;> cases gt (Analysis.cashFlow p c) 0 <;>
      cases ge (Analysis.rentRatio p) (fin c.minRentRatio) <;>
      cases gt (Analysis.capRate p c) 8 <;> simp
  · intro hgood
    apply hscore
    have h70 : 70 ≤ Analysis.score p c := by
      simp only [analyzeProperty, Analysis.isGoodDeal, Bool.and_eq_true,
        decide_eq_true_eq] at hgood
      exact hgood.2
    rw [analyzeProperty_score]
    exact_mod_cast h70

/-- A listing priced 200000 renting for 3000 under the example configuration is a good deal:
its score is at least 75 and its cash flow is positive. -/
theorem score_seventy_needs_cash_flow_witness :
    0 < Analysis.price (bareListing (some 200000) (some 3000)) ∧
    0 < fixtureConfig.downPaymentPercent ∧
    (analyzeProperty (bareListing (some 200000) (some 3000)) fixtureConfig).isGoodDeal = true ∧
    75 ≤ (analyzeProperty (bareListing (some 200000) (some 3000)) fixtureConfig).score ∧
    gt (Analysis.cashFlow (bareListing (some 200000) (some 3000)) fixtureConfig) 0 = true :=
  ⟨by decide!, by decide!, by decide!,
    (score_seventy_needs_cash_flow (bareListing (some 200000) (some 3000)) fixtureConfig
      (by decide!) (by decide!)).2.2.2 (by decide!)⟩

end PropertyAnalyzer
